import Mathlib

set_option maxRecDepth 2000

/-!
Shallow embedding of the two log-analysis daemons of this repository,
`loginsights-docker/loginsights.py` and
`logwhisperer-docker/logwhisperer_wrapper.py`.

The external world (container runtime, clock, HTTP inference backend,
spawned subprocess, harvested report files) is modelled by oracles giving
the result of each successive external call; the daemons themselves are
translated into pure state-passing functions over those oracles.  The
report directory is an association of file names (relative to `/reports`)
to contents; `open(path, "w")` is truncate-and-write.
-/

/-- Python slicing from the start, `s[:n]`: the first `n` characters. -/
def pyTake (s : String) (n : Nat) : String := String.mk (s.data.take n)

/-- Python `l[-n:]`: the last `n` elements of a list (all of them when the
list has fewer than `n`). -/
def takeLast (l : List α) (n : Nat) : List α := l.drop (l.length - n)

/-- Split a character list at every newline character, keeping empty
segments; the accumulator holds the current segment reversed. -/
def splitNlAux : List Char → List Char → List (List Char)
  | [], acc => [acc.reverse]
  | c :: rest, acc =>
      if c = '\n' then acc.reverse :: splitNlAux rest []
      else splitNlAux rest (c :: acc)

/-- Python `s.split("\n")`: every newline separates two segments, so a
trailing newline produces a final empty segment and `""` gives `[""]`. -/
def pySplitNl (s : String) : List String := (splitNlAux s.data []).map String.mk

/-- Python `s.splitlines()` for newline-separated text: like `pySplitNl`,
except a trailing newline yields no empty final element and `""` gives
`[]`. -/
def pySplitlines (s : String) : List String :=
  let parts := pySplitNl s
  if parts.getLast? = some "" then parts.dropLast else parts

/-- The report directory: file names bound to their contents. -/
structure FS where
  files : List (String × String)
deriving DecidableEq

/-- Content of a file, when present. -/
def FS.read (fs : FS) (path : String) : Option String :=
  (fs.files.find? (fun kv => kv.1 == path)).map (fun kv => kv.2)

/-- `open(path, "w")` followed by writing `content`: replaces the content
of an existing file, otherwise appends a new entry. -/
def FS.write (fs : FS) (path content : String) : FS :=
  if (fs.files.find? (fun kv => kv.1 == path)).isSome then
    ⟨fs.files.map (fun kv => if kv.1 == path then (path, content) else kv)⟩
  else ⟨fs.files ++ [(path, content)]⟩

/-- Outcome of one lookup of a container by name against the runtime. -/
inductive ProbeResult where
  | found (status : String)
  | notFound
  | probeError (detail : String)
deriving DecidableEq

/-- `get_container_status` (identical in both daemons): the runtime status
string, `"not_found"` on a lookup miss, `"error"` on any other
runtime-client failure (after logging a warning). -/
def get_container_status : ProbeResult → String
  | .found s => s
  | .notFound => "not_found"
  | .probeError _ => "error"

/-- Outcome of one `container.logs(...)` retrieval. -/
inductive LogsResult where
  | ok (text : String)
  | failure (detail : String)
deriving DecidableEq

/-- `get_recent_logs` (identical in both daemons): the decoded log text,
or on any retrieval failure the synthetic text
`"Error obteniendo logs: <detail>"` instead of an exception. -/
def get_recent_logs : LogsResult → String
  | .ok t => t
  | .failure d => "Error obteniendo logs: " ++ d

/-- One `datetime.now()` observation, as the two renderings the code
uses: `strftime("%Y%m%d_%H%M%S")` and `isoformat()`. -/
structure Time where
  fileTs : String
  iso : String
deriving DecidableEq

/-- The report file name used by both daemons (relative to `/reports`):
`summary_<container>_<timestamp>.txt`. -/
def save_path (container ts : String) : String :=
  "summary_" ++ container ++ "_" ++ ts ++ ".txt"

/-- Python `dict.get(key, dflt)` on a string-valued JSON object. -/
def dictGet (d : List (String × String)) (key dflt : String) : String :=
  match d.find? (fun kv => kv.1 == key) with
  | some kv => kv.2
  | none => dflt

/-- `"=" * 50`. -/
def eqLine : String := String.mk (List.replicate 50 '=')

/-- Does a file name match the glob `summary_*.txt`? -/
def matchesGlob (name : String) : Bool :=
  "summary_".data.isPrefixOf name.data && ".txt".data.isSuffixOf (name.data.drop 8)

namespace LogInsights

/-- Result of the `requests.post` call to `/api/generate`, as
`analyze_with_ollama` observes it: a transport timeout, another transport
failure, or a response carrying a status code, its raw text body, and the
parsed JSON object (string-valued fields, `resp.json()`). -/
inductive HttpOutcome where
  | timeout
  | transportError (detail : String)
  | response (status : Nat) (text : String) (json : List (String × String))
deriving DecidableEq

/-- The fixed instruction part of the prompt `analyze_with_ollama` builds,
with the container name interpolated; the log text follows it. -/
def promptInstructions (container : String) : String :=
  "Analiza los siguientes logs del contenedor **" ++ container ++
  "** y genera un resumen:\n\n1. Mensajes más relevantes\n2. Errores o advertencias críticas\n3. Estado general del servicio\n4. Acciones recomendadas\n\nResponde en español de forma breve y estructurada.\n\nLogs:\n"

/-- The prompt `analyze_with_ollama` posts: the instructions followed by
the log text truncated to its first 4000 characters (`text[:4000]`). -/
def buildPrompt (container text : String) : String :=
  promptInstructions container ++ pyTake text 4000

/-- The response handling of `analyze_with_ollama`: a fixed Spanish
message on timeout, the exception detail on any other transport failure,
`"Error <status>: <body>"` on a non-200 status, and on a 200 response
`resp.json().get("response", "Respuesta vacía")`. -/
def analyze_with_ollama (outcome : HttpOutcome) : String :=
  match outcome with
  | .timeout => "⏱️ Timeout alcanzado durante la llamada a Ollama"
  | .transportError d => "❌ Error llamando a Ollama: " ++ d
  | .response status text json =>
      if status == 200 then dictGet json "response" "Respuesta vacía"
      else "Error " ++ toString status ++ ": " ++ text

/-- The raw-log lines `save_report` writes: `logs.splitlines()[-50:]`. -/
def reportRawLines (logs : String) : List String :=
  takeLast (pySplitlines logs) 50

/-- The full text `save_report` writes: header (with the status string
obtained from a fresh probe performed during writing), ANALYSIS section,
and the last 50 sample lines, each followed by a newline. -/
def save_report_content (model container analysis logs status iso : String) : String :=
  "=== LogInsights - Análisis de logs para " ++ container ++ " ===\n" ++
  "Timestamp: " ++ iso ++ "\n" ++
  "Estado del contenedor: " ++ status ++ "\n" ++
  "Modelo usado: " ++ model ++ "\n" ++
  eqLine ++ "\n\n" ++
  "=== ANÁLISIS ===\n" ++ analysis ++ "\n\n" ++
  "=== LOGS ORIGINALES (últimas 50 líneas) ===\n" ++
  String.join ((reportRawLines logs).map (fun l => l ++ "\n"))

/-- The external world as `loginsights.py` observes it: successive probe,
log-retrieval, clock and HTTP-call results, each indexed by its call
number; the HTTP oracle also sees the posted prompt. -/
structure Oracle where
  probes : Nat → ProbeResult
  logs : Nat → LogsResult
  clock : Nat → Time
  http : String → Nat → HttpOutcome

/-- Observable side effects of the loop. -/
inductive Event where
  | warnSkip (container : String)
  | saved (path : String)
deriving DecidableEq

/-- Loop state: the report directory, one call counter per oracle, and
the emitted events. -/
structure LoopState where
  fs : FS
  nProbe : Nat
  nLogs : Nat
  nClock : Nat
  nHttp : Nat
  events : List Event
deriving DecidableEq

/-- The initial loop state: empty report directory, no calls made. -/
def initState : LoopState := ⟨⟨[]⟩, 0, 0, 0, 0, []⟩

/-- One target's turn in the main loop of `loginsights.py`: probe the
status; when it is `running`, sample logs, call the backend and save a
report — `save_report` reads the clock twice (file-name timestamp, then
ISO header timestamp) and then probes the status again for its header;
otherwise only log a warning. -/
def processContainer (o : Oracle) (model cont : String) (st : LoopState) : LoopState :=
  let probe := o.probes st.nProbe
  let st := { st with nProbe := st.nProbe + 1 }
  if get_container_status probe = "running" then
    let logs := get_recent_logs (o.logs st.nLogs)
    let st := { st with nLogs := st.nLogs + 1 }
    let analysis := analyze_with_ollama (o.http (buildPrompt cont logs) st.nHttp)
    let st := { st with nHttp := st.nHttp + 1 }
    let ts := (o.clock st.nClock).fileTs
    let iso := (o.clock (st.nClock + 1)).iso
    let st := { st with nClock := st.nClock + 2 }
    let headerStatus := get_container_status (o.probes st.nProbe)
    let st := { st with nProbe := st.nProbe + 1 }
    let path := save_path cont ts
    let content := save_report_content model cont analysis logs headerStatus iso
    { st with fs := st.fs.write path content, events := st.events ++ [.saved path] }
  else
    { st with events := st.events ++ [.warnSkip cont] }

/-- One full cycle over the configured targets. -/
def runCycle (o : Oracle) (model : String) (containers : List String) (st : LoopState) : LoopState :=
  containers.foldl (fun s c => processContainer o model c s) st

/-- `n` consecutive cycles. -/
def runCycles (o : Oracle) (model : String) (containers : List String) : Nat → LoopState → LoopState
  | 0, st => st
  | n + 1, st => runCycles o model containers n (runCycle o model containers st)

/-- The file names in the report directory matching `summary_*.txt`. -/
def catalogNames (fs : FS) : List String :=
  (fs.files.filter (fun kv => matchesGlob kv.1)).map (fun kv => kv.1)

/-- Those names sorted lexicographically (`sorted(...)` on the glob). -/
def catalogSorted (fs : FS) : List String :=
  List.insertionSort (· ≤ ·) (catalogNames fs)

/-- `list_last_reports`: scans the directory for `summary_*.txt`, sorts,
and prints the last 10 names with their sizes; absent directory gives no
output.  Returned alongside the (unchanged) directory. -/
def list_last_reports (dir : Option FS) : List (String × Nat) × Option FS :=
  match dir with
  | none => ([], none)
  | some fs =>
      ((takeLast (catalogSorted fs) 10).map (fun n => (n, ((fs.read n).getD "").length)),
       some fs)

/-- The whole program: the startup `docker.DockerClient(...)`/`ping()` is
attempted once; on failure the process exits with code 1, with no retry;
otherwise the cycle loop runs (modelled for any finite number of
cycles). -/
def runProgram (connect : Except String Unit) (o : Oracle) (model : String)
    (containers : List String) (cycles : Nat) : Except Nat LoopState :=
  match connect with
  | .error _ => .error 1
  | .ok _ => .ok (runCycles o model containers cycles initState)

end LogInsights

namespace LogWhisperer

/-- Result of `subprocess.run` on the LogWhisperer tool: a completed run
(whatever its return code), expiry of the subprocess timeout, or any
other raised exception. -/
inductive SubprocResult where
  | completed (returncode : Int) (stdout stderr : String)
  | timedOut
  | raised (detail : String)
deriving DecidableEq

/-- The external world as `logwhisperer_wrapper.py` observes it: probe,
log-retrieval, clock, subprocess and report-harvest results, each indexed
by its call number.  The harvest oracle models
`ls -t /opt/logwhisperer/reports/log_summary_*.md | head -1`: `some c`
means a generated report with content `c` exists, `none` means none. -/
structure Oracle where
  probes : Nat → ProbeResult
  logs : Nat → LogsResult
  clock : Nat → Time
  subproc : Nat → SubprocResult
  harvest : Nat → Option String

/-- Observable side effects of the wrapper's loop. -/
inductive Event where
  | warnNotFound (container : String)
  | warnNotRunning (container status : String)
  | saved (path : String)
deriving DecidableEq

/-- Loop state of the wrapper. -/
structure StateLW where
  fs : FS
  nProbe : Nat
  nLogs : Nat
  nClock : Nat
  nSub : Nat
  nHarvest : Nat
  events : List Event
deriving DecidableEq

/-- The initial state: empty report directory, no calls made. -/
def initStateLW : StateLW := ⟨⟨[]⟩, 0, 0, 0, 0, 0, []⟩

/-- The header the wrapper writes in its harvested-report and fallback
formats: title, ISO timestamp, freshly probed status, model, rule. -/
def lwHeader (model container iso status : String) : String :=
  "=== Análisis de logs para " ++ container ++ " ===\n" ++
  "Timestamp: " ++ iso ++ "\n" ++
  "Estado del contenedor: " ++ status ++ "\n" ++
  "Modelo usado: " ++ model ++ "\n" ++
  eqLine ++ "\n\n"

/-- Body of the fallback report (no harvested report found): the stdout
section when stdout is longer than 10 characters, a stock line when the
subprocess succeeded silently, the stderr section when stderr is
nonempty, and `"\n".join(logs.split("\n")[-50:])`. -/
def fallbackBody (rc : Int) (out err logs : String) : String :=
  (if out.length > 10 then "=== ANÁLISIS ===\n" ++ out ++ "\n\n"
   else if rc == 0 then "=== ANÁLISIS ===\nAnálisis completado pero sin salida detallada.\n\n"
   else "") ++
  (if err ≠ "" then "=== ERRORES ===\n" ++ err ++ "\n\n" else "") ++
  "=== LOGS ORIGINALES (últimas 50 líneas) ===\n" ++
  String.intercalate "\n" (takeLast (pySplitNl logs) 50)

/-- The report written by the `subprocess.TimeoutExpired` handler: no
analysis, no status probe, and the whole log sample untruncated. -/
def timeoutContent (container iso logs : String) (timeoutSecs : Nat) : String :=
  "=== Logs de " ++ container ++ " (sin análisis - timeout) ===\n" ++
  "Timestamp: " ++ iso ++ "\n" ++
  "Timeout después de " ++ toString timeoutSecs ++ " segundos\n\n" ++
  logs

/-- The report written by the generic exception handler: the error detail
and the whole log sample untruncated. -/
def errorContent (container detail logs : String) : String :=
  "=== Error analizando " ++ container ++ " ===\n" ++
  "Error: " ++ detail ++ "\n\n" ++
  "=== LOGS ORIGINALES ===\n" ++
  logs

/-- `analyze_logs`: fix the report file name from the clock, run the
LogWhisperer subprocess, and write exactly one report in whichever of the
four formats the outcome selects (harvested, fallback, timeout, error). -/
def analyze_logs (o : Oracle) (model container : String) (timeoutSecs : Nat)
    (st : StateLW) : StateLW :=
  let ts := (o.clock st.nClock).fileTs
  let path := save_path container ts
  let st := { st with nClock := st.nClock + 1 }
  match o.subproc st.nSub with
  | .completed rc out err =>
      let st := { st with nSub := st.nSub + 1 }
      match o.harvest st.nHarvest with
      | some harvested =>
          let st := { st with nHarvest := st.nHarvest + 1 }
          let iso := (o.clock st.nClock).iso
          let st := { st with nClock := st.nClock + 1 }
          let status := get_container_status (o.probes st.nProbe)
          let st := { st with nProbe := st.nProbe + 1 }
          let content := lwHeader model container iso status ++ harvested
          { st with fs := st.fs.write path content, events := st.events ++ [.saved path] }
      | none =>
          let st := { st with nHarvest := st.nHarvest + 1 }
          let logs := get_recent_logs (o.logs st.nLogs)
          let st := { st with nLogs := st.nLogs + 1 }
          let iso := (o.clock st.nClock).iso
          let st := { st with nClock := st.nClock + 1 }
          let status := get_container_status (o.probes st.nProbe)
          let st := { st with nProbe := st.nProbe + 1 }
          let content := lwHeader model container iso status ++ fallbackBody rc out err logs
          { st with fs := st.fs.write path content, events := st.events ++ [.saved path] }
  | .timedOut =>
      let st := { st with nSub := st.nSub + 1 }
      let logs := get_recent_logs (o.logs st.nLogs)
      let st := { st with nLogs := st.nLogs + 1 }
      let iso := (o.clock st.nClock).iso
      let st := { st with nClock := st.nClock + 1 }
      { st with fs := st.fs.write path (timeoutContent container iso logs timeoutSecs),
                events := st.events ++ [.saved path] }
  | .raised detail =>
      let st := { st with nSub := st.nSub + 1 }
      let logs := get_recent_logs (o.logs st.nLogs)
      let st := { st with nLogs := st.nLogs + 1 }
      { st with fs := st.fs.write path (errorContent container detail logs),
                events := st.events ++ [.saved path] }

/-- One target's turn in the wrapper's main loop: probe once; analyze
when `running`, otherwise warn (distinguishing `not_found`). -/
def processContainer (o : Oracle) (model container : String) (timeoutSecs : Nat)
    (st : StateLW) : StateLW :=
  let status := get_container_status (o.probes st.nProbe)
  let st := { st with nProbe := st.nProbe + 1 }
  if status = "running" then analyze_logs o model container timeoutSecs st
  else if status = "not_found" then
    { st with events := st.events ++ [.warnNotFound container] }
  else
    { st with events := st.events ++ [.warnNotRunning container status] }

/-- One full cycle over the configured targets. -/
def runCycle (o : Oracle) (model : String) (timeoutSecs : Nat)
    (containers : List String) (st : StateLW) : StateLW :=
  containers.foldl (fun s c => processContainer o model c timeoutSecs s) st

/-- `n` consecutive cycles. -/
def runCycles (o : Oracle) (model : String) (timeoutSecs : Nat)
    (containers : List String) : Nat → StateLW → StateLW
  | 0, st => st
  | n + 1, st => runCycles o model timeoutSecs containers n (runCycle o model timeoutSecs containers st)

/-- The wrapper program: `docker.DockerClient(...)` is attempted once at
startup; on failure the process exits with code 1, with no retry;
otherwise the cycle loop runs. -/
def runProgram (connect : Except String Unit) (o : Oracle) (model : String)
    (timeoutSecs : Nat) (containers : List String) (cycles : Nat) : Except Nat StateLW :=
  match connect with
  | .error _ => .error 1
  | .ok _ => .ok (runCycles o model timeoutSecs containers cycles initStateLW)

end LogWhisperer

/-! Helper lemmas. -/

theorem takeLast_length (l : List α) (n : Nat) : (takeLast l n).length = min n l.length := by
  simp only [takeLast, List.length_drop]
  omega

theorem pyTake_length (s : String) (n : Nat) : (pyTake s n).length = min n s.length := by
  cases s with
  | mk data => simp [pyTake, String.length]

theorem pyTake_of_le (s : String) (n : Nat) (h : s.length ≤ n) : pyTake s n = s := by
  cases s with
  | mk data =>
      simp only [String.length] at h
      simp [pyTake, List.take_of_length_le h]

theorem splitNlAux_no_newline (l : List Char) (h : ∀ c ∈ l, c ≠ '\n') :
    ∀ acc, splitNlAux l acc = [acc.reverse ++ l] := by
  induction l with
  | nil => intro acc; simp [splitNlAux]
  | cons c rest ih =>
      intro acc
      have hc : ¬ (c = '\n') := h c (by simp)
      simp only [splitNlAux, if_neg hc]
      rw [ih (fun x hx => h x (by simp [hx])) (c :: acc)]
      simp

theorem pySplitlines_single (s : String) (hne : s ≠ "") (h : ∀ c ∈ s.data, c ≠ '\n') :
    pySplitlines s = [s] := by
  have hmk : String.mk s.data = s := by cases s; rfl
  unfold pySplitlines pySplitNl
  rw [splitNlAux_no_newline s.data h []]
  simp only [List.reverse_nil, List.nil_append, List.map_cons, List.map_nil, hmk]
  have hlast : ([s].getLast? = some "") = False := by
    simp only [List.getLast?, eq_iff_iff, iff_false]
    intro hcontra
    exact hne (by injection hcontra)
  simp only [hlast, if_false]

theorem find?_kv_cons_of_ne (x : String × String) (l : List (String × String))
    (p : String) (h : x.1 ≠ p) :
    ((x :: l).find? (fun kv => kv.1 == p)) = l.find? (fun kv => kv.1 == p) :=
  List.find?_cons_of_neg _ (by simp [h])

theorem find?_kv_cons_of_eq (x : String × String) (l : List (String × String))
    (p : String) (h : x.1 = p) :
    ((x :: l).find? (fun kv => kv.1 == p)) = some x :=
  List.find?_cons_of_pos _ (by simp [h])

theorem find?_map_replace (l : List (String × String)) (path content p : String)
    (hne : p ≠ path) :
    (l.map (fun kv => if kv.1 == path then (path, content) else kv)).find?
        (fun kv => kv.1 == p)
      = l.find? (fun kv => kv.1 == p) := by
  induction l with
  | nil => rfl
  | cons kv t ih =>
      simp only [List.map_cons]
      by_cases hk : kv.1 = path
      · have hmap : (if kv.1 == path then (path, content) else kv) = (path, content) := by
          simp [hk]
        rw [hmap, find?_kv_cons_of_ne _ _ _ (fun h => hne h.symm),
            find?_kv_cons_of_ne _ _ _ (by rw [hk]; exact fun h => hne h.symm)]
        exact ih
      · have hmap : (if kv.1 == path then (path, content) else kv) = kv := by simp [hk]
        rw [hmap]
        by_cases hkp : kv.1 = p
        · rw [find?_kv_cons_of_eq _ _ _ hkp, find?_kv_cons_of_eq _ _ _ hkp]
        · rw [find?_kv_cons_of_ne _ _ _ hkp, find?_kv_cons_of_ne _ _ _ hkp]
          exact ih

theorem find?_map_replace_self (l : List (String × String)) (path content : String)
    (hfound : (l.find? (fun kv => kv.1 == path)).isSome = true) :
    (l.map (fun kv => if kv.1 == path then (path, content) else kv)).find?
        (fun kv => kv.1 == path)
      = some (path, content) := by
  induction l with
  | nil => simp [List.find?] at hfound
  | cons kv t ih =>
      simp only [List.map_cons]
      by_cases hk : kv.1 = path
      · have hmap : (if kv.1 == path then (path, content) else kv) = (path, content) := by
          simp [hk]
        rw [hmap]
        exact find?_kv_cons_of_eq (path, content) _ path rfl
      · have hmap : (if kv.1 == path then (path, content) else kv) = kv := by simp [hk]
        rw [hmap, find?_kv_cons_of_ne _ _ _ hk]
        apply ih
        rw [find?_kv_cons_of_ne _ _ _ hk] at hfound
        exact hfound

/-- Reading after a write: the written path now holds the new content and
every other path is untouched — `open(p, "w")` never deletes or changes a
different file, whether the write replaced an entry or appended one. -/
theorem FS.read_write (fs : FS) (path content p : String) :
    FS.read (fs.write path content) p
      = if p = path then some content else FS.read fs p := by
  by_cases hfound : (fs.files.find? (fun kv => kv.1 == path)).isSome = true
  · have hw : fs.write path content
        = ⟨fs.files.map (fun kv => if kv.1 == path then (path, content) else kv)⟩ := by
      unfold FS.write
      rw [if_pos hfound]
    rw [hw]
    by_cases hp : p = path
    · subst hp
      unfold FS.read
      rw [find?_map_replace_self fs.files p content hfound]
      simp
    · unfold FS.read
      rw [find?_map_replace fs.files path content p hp, if_neg hp]
  · have hnone : fs.files.find? (fun kv => kv.1 == path) = none := by
      cases h : fs.files.find? (fun kv => kv.1 == path) with
      | none => rfl
      | some kv => exact absurd (by rw [h]; rfl) hfound
    have hw : fs.write path content = ⟨fs.files ++ [(path, content)]⟩ := by
      unfold FS.write
      rw [hnone]
      rfl
    rw [hw]
    unfold FS.read
    rw [List.find?_append]
    by_cases hp : p = path
    · subst hp
      rw [hnone, find?_kv_cons_of_eq (p, content) [] p rfl]
      simp
    · cases h : fs.files.find? (fun kv => kv.1 == p) with
      | none =>
          rw [find?_kv_cons_of_ne _ _ _ (fun hh => hp hh.symm)]
          simp [Option.or, List.find?, if_neg hp]
      | some kv =>
          simp [Option.or, if_neg hp]

/-! Report-section extraction (for reading written reports back). -/

/-- The lines of a report's ANALYSIS section: those following the
`=== ANÁLISIS ===` marker line, up to the next blank line. -/
def analysisSection (content : String) : List String :=
  (((pySplitlines content).dropWhile (fun l => !(l == "=== ANÁLISIS ==="))).drop 1).takeWhile
    (fun l => !(l == ""))

/-- The lines of a report's raw-logs section: those following its
`=== LOGS ORIGINALES` marker line. -/
def rawSection (content : String) : List String :=
  ((pySplitlines content).dropWhile
    (fun l => !("=== LOGS ORIGINALES".data.isPrefixOf l.data))).drop 1

/-! Concrete worlds used to exercise the daemons. -/

/-- A 51-line log sample. -/
def sample51 : String :=
  String.intercalate "\n" ((List.range 51).map (fun i => "l" ++ toString i))

/-- A world where the target is always running, sampling succeeds with
`sample51`, and the LogWhisperer subprocess raises an exception. -/
def oracleRaise : LogWhisperer.Oracle where
  probes := fun _ => .found "running"
  logs := fun _ => .ok sample51
  clock := fun _ => ⟨"20250101_000000", "2025-01-01T00:00:00"⟩
  subproc := fun _ => .raised "boom"
  harvest := fun _ => none

/-- A world where the target is always running, sampling fails with a
connection error, and the backend times out. -/
def oracleFailSample : LogInsights.Oracle where
  probes := fun _ => .found "running"
  logs := fun _ => .failure "connection refused"
  clock := fun _ => ⟨"20250101_000000", "2025-01-01T00:00:00"⟩
  http := fun _ _ => .timeout

/-- A world where the target exists but is stopped. -/
def oracleStopped : LogInsights.Oracle where
  probes := fun _ => .found "exited"
  logs := fun _ => .ok "line\n"
  clock := fun _ => ⟨"20250101_000000", "2025-01-01T00:00:00"⟩
  http := fun _ _ => .timeout

/-- A world where the target does not exist. -/
def oracleGone : LogWhisperer.Oracle where
  probes := fun _ => .notFound
  logs := fun _ => .ok "line\n"
  clock := fun _ => ⟨"20250101_000000", "2025-01-01T00:00:00"⟩
  subproc := fun _ => .timedOut
  harvest := fun _ => none

/-- Whatever the subprocess and harvest outcome, one call of the
wrapper's `analyze_logs` performs exactly one file write, at the name
keyed by the clock reading made on entry, and emits one saved event. -/
theorem LogWhisperer.analyze_logs_single_write (ow : LogWhisperer.Oracle)
    (model c : String) (tmo : Nat) (s : LogWhisperer.StateLW) :
    ∃ content, (LogWhisperer.analyze_logs ow model c tmo s).fs
        = s.fs.write (save_path c ((ow.clock s.nClock).fileTs)) content ∧
      (LogWhisperer.analyze_logs ow model c tmo s).events
        = s.events ++ [.saved (save_path c ((ow.clock s.nClock).fileTs))] := by
  unfold LogWhisperer.analyze_logs
  dsimp only
  cases ow.subproc s.nSub with
  | completed rc out err =>
      cases ow.harvest s.nHarvest with
      | some harvested => exact ⟨_, rfl, rfl⟩
      | none => exact ⟨_, rfl, rfl⟩
  | timedOut => exact ⟨_, rfl, rfl⟩
  | raised detail => exact ⟨_, rfl, rfl⟩

/-- When the eligibility probe says `running`, the loginsights turn
performs one write: file name keyed by the first clock reading, content
built from the sampled logs, the summarization result, the *second*
probe's status, and the second clock reading. -/
theorem LogInsights.processContainer_write (o : LogInsights.Oracle) (model c : String)
    (st : LogInsights.LoopState)
    (h : get_container_status (o.probes st.nProbe) = "running") :
    (LogInsights.processContainer o model c st).fs
      = st.fs.write (save_path c ((o.clock st.nClock).fileTs))
          (LogInsights.save_report_content model c
            (LogInsights.analyze_with_ollama
              (o.http (LogInsights.buildPrompt c (get_recent_logs (o.logs st.nLogs))) st.nHttp))
            (get_recent_logs (o.logs st.nLogs))
            (get_container_status (o.probes (st.nProbe + 1)))
            ((o.clock (st.nClock + 1)).iso)) ∧
    (LogInsights.processContainer o model c st).events
      = st.events ++ [.saved (save_path c ((o.clock st.nClock).fileTs))] := by
  unfold LogInsights.processContainer
  rw [if_pos h]
  exact ⟨rfl, rfl⟩

/-- When the eligibility probe is not `running`, the loginsights turn
leaves the directory untouched. -/
theorem LogInsights.processContainer_skip (o : LogInsights.Oracle) (model c : String)
    (st : LogInsights.LoopState)
    (h : ¬ get_container_status (o.probes st.nProbe) = "running") :
    (LogInsights.processContainer o model c st).fs = st.fs := by
  unfold LogInsights.processContainer
  rw [if_neg h]

/-! Claim theorems. -/

/-- C1: during its turn in a cycle, a target whose eligibility probe
returned `running` receives exactly one report write — one file write at
the timestamp-keyed name and one saved event — whatever the sampling,
summarization, subprocess or harvest outcome, in both daemons. -/
theorem C1_one_report_per_running_target
    (o : LogInsights.Oracle) (ow : LogWhisperer.Oracle) (model c : String) (tmo : Nat)
    (st : LogInsights.LoopState) (sw : LogWhisperer.StateLW)
    (h : get_container_status (o.probes st.nProbe) = "running")
    (hw : get_container_status (ow.probes sw.nProbe) = "running") :
    (∃ content,
      (LogInsights.processContainer o model c st).fs
        = st.fs.write (save_path c ((o.clock st.nClock).fileTs)) content ∧
      (LogInsights.processContainer o model c st).events
        = st.events ++ [.saved (save_path c ((o.clock st.nClock).fileTs))]) ∧
    (∃ content,
      (LogWhisperer.processContainer ow model c tmo sw).fs
        = sw.fs.write (save_path c ((ow.clock sw.nClock).fileTs)) content ∧
      (LogWhisperer.processContainer ow model c tmo sw).events
        = sw.events ++ [.saved (save_path c ((ow.clock sw.nClock).fileTs))]) := by
  constructor
  · obtain ⟨hfs, hev⟩ := LogInsights.processContainer_write o model c st h
    exact ⟨_, hfs, hev⟩
  · unfold LogWhisperer.processContainer
    rw [if_pos hw]
    exact LogWhisperer.analyze_logs_single_write ow model c tmo _

/-- Witness for `C1_one_report_per_running_target`: concrete running
targets with a timed-out backend (loginsights) and a raising subprocess
(logwhisperer) still produce exactly the one saved event each. -/
theorem C1_witness :
    (LogInsights.processContainer oracleFailSample "phi3:mini" "svc-a"
        LogInsights.initState).events
      = [.saved "summary_svc-a_20250101_000000.txt"] ∧
    (LogWhisperer.processContainer oracleRaise "phi3:mini" "svc-a" 90
        LogWhisperer.initStateLW).events
      = [.saved "summary_svc-a_20250101_000000.txt"] := by
  have h := C1_one_report_per_running_target oracleFailSample oracleRaise "phi3:mini" "svc-a" 90
    LogInsights.initState LogWhisperer.initStateLW (by decide) (by decide)
  obtain ⟨⟨c1, _, he1⟩, ⟨c2, _, he2⟩⟩ := h
  exact ⟨he1.trans (by decide), he2.trans (by decide)⟩

/-- C2: a target whose probe is anything other than `running` (stopped
state, `not_found`, probe error) produces no report write during its
turn: the report directory is untouched, the skip is logged as a
warning, and the cycle continues with the remaining targets; in both
daemons. -/
theorem C2_skip_non_running
    (o : LogInsights.Oracle) (ow : LogWhisperer.Oracle) (model c : String) (tmo : Nat)
    (rest : List String) (st : LogInsights.LoopState) (sw : LogWhisperer.StateLW)
    (h : get_container_status (o.probes st.nProbe) ≠ "running")
    (hw : get_container_status (ow.probes sw.nProbe) ≠ "running") :
    ((LogInsights.processContainer o model c st).fs = st.fs ∧
     (LogInsights.processContainer o model c st).events = st.events ++ [.warnSkip c] ∧
     LogInsights.runCycle o model (c :: rest) st
       = LogInsights.runCycle o model rest (LogInsights.processContainer o model c st)) ∧
    ((LogWhisperer.processContainer ow model c tmo sw).fs = sw.fs ∧
     ((LogWhisperer.processContainer ow model c tmo sw).events
        = sw.events ++ [.warnNotFound c] ∨
      (LogWhisperer.processContainer ow model c tmo sw).events
        = sw.events ++ [.warnNotRunning c (get_container_status (ow.probes sw.nProbe))]) ∧
     LogWhisperer.runCycle ow model tmo (c :: rest) sw
       = LogWhisperer.runCycle ow model tmo rest
           (LogWhisperer.processContainer ow model c tmo sw)) := by
  refine ⟨⟨?_, ?_, rfl⟩, ⟨?_, ?_, rfl⟩⟩
  · unfold LogInsights.processContainer
    rw [if_neg h]
  · unfold LogInsights.processContainer
    rw [if_neg h]
  · unfold LogWhisperer.processContainer
    rw [if_neg hw]
    by_cases hnf : get_container_status (ow.probes sw.nProbe) = "not_found"
    · rw [if_pos hnf]
    · rw [if_neg hnf]
  · unfold LogWhisperer.processContainer
    rw [if_neg hw]
    by_cases hnf : get_container_status (ow.probes sw.nProbe) = "not_found"
    · rw [if_pos hnf]
      exact Or.inl rfl
    · rw [if_neg hnf]
      exact Or.inr rfl

/-- Witness for `C2_skip_non_running`: a stopped target (loginsights)
and a missing target (logwhisperer) write nothing and warn. -/
theorem C2_witness :
    (LogInsights.processContainer oracleStopped "phi3:mini" "svc-a"
        LogInsights.initState).fs = LogInsights.initState.fs ∧
    (LogInsights.processContainer oracleStopped "phi3:mini" "svc-a"
        LogInsights.initState).events = [.warnSkip "svc-a"] ∧
    (LogWhisperer.processContainer oracleGone "phi3:mini" "svc-a" 90
        LogWhisperer.initStateLW).fs = LogWhisperer.initStateLW.fs := by
  have h := C2_skip_non_running oracleStopped oracleGone "phi3:mini" "svc-a" 90 []
    LogInsights.initState LogWhisperer.initStateLW (by decide) (by decide)
  exact ⟨h.1.1, (h.1.2.1).trans (by decide), h.2.1⟩

theorem map_fst_pair (f : String → Nat) (l : List String) :
    l.map (Prod.fst ∘ fun n => (n, f n)) = l := by
  induction l with
  | nil => rfl
  | cons a t ih => simp only [List.map_cons, Function.comp, ih]

/-- C7: the report-catalog listing is a pure read: it returns the
directory unchanged, repeating it with no intervening write yields the
identical ordered output, an absent directory yields the empty sequence,
the output has at most 10 entries, its names are sorted and are the last
(greatest, i.e. most recent) entries of the sorted matching names, and
every listed name matches the `summary_*.txt` glob. -/
theorem C7_catalog_pure_listing (dir : Option FS) :
    (LogInsights.list_last_reports dir).2 = dir ∧
    (LogInsights.list_last_reports ((LogInsights.list_last_reports dir).2)).1
      = (LogInsights.list_last_reports dir).1 ∧
    (LogInsights.list_last_reports (none : Option FS)).1 = [] ∧
    (LogInsights.list_last_reports dir).1.length ≤ 10 ∧
    ((LogInsights.list_last_reports dir).1.map Prod.fst).Sorted (· ≤ ·) ∧
    (∀ fs, ((LogInsights.list_last_reports (some fs)).1.map Prod.fst)
        = (LogInsights.catalogSorted fs).drop ((LogInsights.catalogSorted fs).length - 10)) ∧
    (∀ nm sz, (nm, sz) ∈ (LogInsights.list_last_reports dir).1 → matchesGlob nm = true) := by
  have hsnd : (LogInsights.list_last_reports dir).2 = dir := by
    cases dir <;> rfl
  refine ⟨hsnd, by rw [hsnd], rfl, ?_, ?_, ?_, ?_⟩
  · cases dir with
    | none => simp [LogInsights.list_last_reports]
    | some fs =>
        simp only [LogInsights.list_last_reports, List.length_map]
        rw [takeLast_length]
        exact Nat.min_le_left _ _
  · cases dir with
    | none => simp [LogInsights.list_last_reports]
    | some fs =>
        simp only [LogInsights.list_last_reports, List.map_map]
        rw [map_fst_pair]
        exact (List.sorted_insertionSort _ (LogInsights.catalogNames fs)).drop
  · intro fs
    simp only [LogInsights.list_last_reports, List.map_map]
    rw [map_fst_pair]
    rfl
  · intro nm sz hmem
    cases dir with
    | none => simp [LogInsights.list_last_reports] at hmem
    | some fs =>
        simp only [LogInsights.list_last_reports, List.mem_map] at hmem
        obtain ⟨n, hn, heq⟩ := hmem
        have hnm : n = nm := congrArg Prod.fst heq
        subst hnm
        have hin : n ∈ LogInsights.catalogSorted fs :=
          List.drop_subset _ _ hn
        have hin2 : n ∈ LogInsights.catalogNames fs :=
          (List.perm_insertionSort _ (LogInsights.catalogNames fs)).subset hin
        simp only [LogInsights.catalogNames, List.mem_map] at hin2
        obtain ⟨kv, hkv, hkfst⟩ := hin2
        rw [List.mem_filter] at hkv
        rw [← hkfst]
        exact hkv.2

/-- Witness for `C7_catalog_pure_listing`: every entry of a concrete
two-file directory's listing matches the glob. -/
theorem C7_witness : matchesGlob "summary_a_1.txt" = true :=
  (C7_catalog_pure_listing
      (some ⟨[("summary_a_1.txt", "x"), ("other.txt", "yz")]⟩)).2.2.2.2.2.2
    "summary_a_1.txt" 1 (by decide)

/-- C8: the only fatal outcome is failure of the initial runtime
connection at startup, which ends the run with exit code 1 and is never
retried; once startup succeeds, every world — including ones where every
probe errors, every sampling fails, the backend times out or errors, the
subprocess raises — still yields a completed run of any number of
cycles, in both daemons. -/
theorem C8_only_startup_fatal :
    (∀ (d : String) (o : LogInsights.Oracle) (model : String) (containers : List String)
        (cycles : Nat),
      LogInsights.runProgram (.error d) o model containers cycles = .error 1) ∧
    (∀ (o : LogInsights.Oracle) (model : String) (containers : List String) (cycles : Nat),
      LogInsights.runProgram (.ok ()) o model containers cycles
        = .ok (LogInsights.runCycles o model containers cycles LogInsights.initState)) ∧
    (∀ (d : String) (ow : LogWhisperer.Oracle) (model : String) (tmo : Nat)
        (containers : List String) (cycles : Nat),
      LogWhisperer.runProgram (.error d) ow model tmo containers cycles = .error 1) ∧
    (∀ (ow : LogWhisperer.Oracle) (model : String) (tmo : Nat) (containers : List String)
        (cycles : Nat),
      LogWhisperer.runProgram (.ok ()) ow model tmo containers cycles
        = .ok (LogWhisperer.runCycles ow model tmo containers cycles
            LogWhisperer.initStateLW)) :=
  ⟨fun _ _ _ _ _ => rfl, fun _ _ _ _ => rfl, fun _ _ _ _ _ _ => rfl, fun _ _ _ _ _ => rfl⟩

/-- A world with a constant clock: two cycles fall in the same second. -/
def oracleCollide : LogInsights.Oracle where
  probes := fun _ => .found "running"
  logs := fun n => .ok ("cycle " ++ toString n ++ "\n")
  clock := fun _ => ⟨"20250101_000000", "2025-01-01T00:00:00"⟩
  http := fun _ _ => .timeout

/-- State after one cycle in the colliding world. -/
def collideSt1 : LogInsights.LoopState :=
  LogInsights.runCycle oracleCollide "phi3:mini" ["svc-a"] LogInsights.initState

/-- State after a second cycle in the colliding world. -/
def collideSt2 : LogInsights.LoopState :=
  LogInsights.runCycle oracleCollide "phi3:mini" ["svc-a"] collideSt1

/-- C9 counterexample: when two writes for the same target carry the same
second-resolution timestamp (constant clock, e.g. a zero cycle interval),
the second cycle reopens the same `summary_svc-a_20250101_000000.txt`
with mode `"w"` and replaces its content: a written report is edited, and
the second write did not go to a fresh filename. -/
theorem C9_counterexample :
    (FS.read collideSt1.fs "summary_svc-a_20250101_000000.txt").isSome = true ∧
    collideSt2.fs.files.length = 1 ∧
    FS.read collideSt1.fs "summary_svc-a_20250101_000000.txt"
      ≠ FS.read collideSt2.fs "summary_svc-a_20250101_000000.txt" := by
  exact ⟨by decide, by decide, by decide⟩

/-- C9 (amended): provided the timestamp-keyed name of the new report is
fresh (no earlier report of the same target in the same second), a turn
of either daemon never edits or deletes any written report: every
existing file keeps its exact content. -/
theorem C9_append_only (o : LogInsights.Oracle) (ow : LogWhisperer.Oracle)
    (model c : String) (tmo : Nat)
    (st : LogInsights.LoopState) (sw : LogWhisperer.StateLW)
    (hfresh : FS.read st.fs (save_path c ((o.clock st.nClock).fileTs)) = none)
    (hfreshw : FS.read sw.fs (save_path c ((ow.clock sw.nClock).fileTs)) = none) :
    (∀ p v, FS.read st.fs p = some v →
      FS.read (LogInsights.processContainer o model c st).fs p = some v) ∧
    (∀ p v, FS.read sw.fs p = some v →
      FS.read (LogWhisperer.processContainer ow model c tmo sw).fs p = some v) := by
  constructor
  · intro p v hv
    by_cases hrun : get_container_status (o.probes st.nProbe) = "running"
    · obtain ⟨hfs, _⟩ := LogInsights.processContainer_write o model c st hrun
      rw [hfs, FS.read_write]
      have hne : ¬ p = save_path c ((o.clock st.nClock).fileTs) := by
        intro he
        rw [he, hfresh] at hv
        exact Option.noConfusion hv
      rw [if_neg hne]
      exact hv
    · rw [LogInsights.processContainer_skip o model c st hrun]
      exact hv
  · intro p v hv
    by_cases hrun : get_container_status (ow.probes sw.nProbe) = "running"
    · have hstep : LogWhisperer.processContainer ow model c tmo sw
          = LogWhisperer.analyze_logs ow model c tmo { sw with nProbe := sw.nProbe + 1 } := by
        unfold LogWhisperer.processContainer
        rw [if_pos hrun]
      obtain ⟨content, hfs, _⟩ := LogWhisperer.analyze_logs_single_write ow model c tmo
        { sw with nProbe := sw.nProbe + 1 }
      rw [hstep, hfs, FS.read_write]
      have hne : ¬ p = save_path c ((ow.clock sw.nClock).fileTs) := by
        intro he
        rw [he, hfreshw] at hv
        exact Option.noConfusion hv
      rw [if_neg hne]
      exact hv
    · have hstep : (LogWhisperer.processContainer ow model c tmo sw).fs = sw.fs := by
        unfold LogWhisperer.processContainer
        rw [if_neg hrun]
        by_cases hnf : get_container_status (ow.probes sw.nProbe) = "not_found"
        · rw [if_pos hnf]
        · rw [if_neg hnf]
      rw [hstep]
      exact hv

/-- A loginsights state already holding an older report. -/
def stWithOld : LogInsights.LoopState :=
  ⟨⟨[("summary_svc-a_20240101_000000.txt", "old")]⟩, 0, 0, 0, 0, []⟩

/-- A logwhisperer state already holding an older report. -/
def swWithOld : LogWhisperer.StateLW :=
  ⟨⟨[("summary_svc-a_20240101_000000.txt", "old")]⟩, 0, 0, 0, 0, 0, []⟩

/-- Witness for `C9_append_only`: an earlier report survives a new turn
unchanged in both daemons. -/
theorem C9_append_only_witness :
    FS.read (LogInsights.processContainer oracleFailSample "phi3:mini" "svc-a" stWithOld).fs
        "summary_svc-a_20240101_000000.txt" = some "old" ∧
    FS.read (LogWhisperer.processContainer oracleRaise "phi3:mini" "svc-a" 90 swWithOld).fs
        "summary_svc-a_20240101_000000.txt" = some "old" := by
  have h := C9_append_only oracleFailSample oracleRaise "phi3:mini" "svc-a" 90
    stWithOld swWithOld (by decide) (by decide)
  exact ⟨h.1 _ _ (by decide), h.2 _ _ (by decide)⟩

/-- A world where the eligibility probe finds the target running but
every later probe misses it. -/
def oracleDiverge : LogInsights.Oracle where
  probes := fun n => if n = 0 then .found "running" else .notFound
  logs := fun _ => .ok "2025-01-01T00:00:00Z line\n"
  clock := fun _ => ⟨"20250101_000000", "2025-01-01T00:00:00"⟩
  http := fun _ _ => .response 200 "\x7b\"response\": \"ok\"\x7d" [("response", "ok")]

/-- A world where the wrapper's eligibility probe finds the target
running, every later probe misses it, the subprocess completes, and a
generated report is harvested. -/
def oracleDivergeLW : LogWhisperer.Oracle where
  probes := fun n => if n = 0 then .found "running" else .notFound
  logs := fun _ => .ok "2025-01-01T00:00:00Z line\n"
  clock := fun _ => ⟨"20250101_000000", "2025-01-01T00:00:00"⟩
  subproc := fun _ => .completed 0 "done" ""
  harvest := fun _ => some "# Log Summary\nok\n"

/-- C10: in both daemons, the status in a written report's header comes
from a fresh probe performed during report writing — the probe call made
after sampling/summarization, at index one past the eligibility probe —
not from the eligibility probe itself: so for loginsights'
`save_report`, and for the two logwhisperer `analyze_logs` paths that
write a status header (harvested and fallback); and in the diverging
worlds the eligibility probe says running yet the written header line of
each daemon's report reads `not_found`. -/
theorem C10_fresh_header_probe :
    (∀ (o : LogInsights.Oracle) (model c : String) (st : LogInsights.LoopState),
      get_container_status (o.probes st.nProbe) = "running" →
      FS.read (LogInsights.processContainer o model c st).fs
          (save_path c ((o.clock st.nClock).fileTs))
        = some (LogInsights.save_report_content model c
            (LogInsights.analyze_with_ollama
              (o.http (LogInsights.buildPrompt c (get_recent_logs (o.logs st.nLogs))) st.nHttp))
            (get_recent_logs (o.logs st.nLogs))
            (get_container_status (o.probes (st.nProbe + 1)))
            ((o.clock (st.nClock + 1)).iso))) ∧
    (∀ (ow : LogWhisperer.Oracle) (model c : String) (tmo : Nat)
        (sw : LogWhisperer.StateLW) (rc : Int) (out err harvested : String),
      get_container_status (ow.probes sw.nProbe) = "running" →
      ow.subproc sw.nSub = .completed rc out err →
      ow.harvest sw.nHarvest = some harvested →
      FS.read (LogWhisperer.processContainer ow model c tmo sw).fs
          (save_path c ((ow.clock sw.nClock).fileTs))
        = some (LogWhisperer.lwHeader model c ((ow.clock (sw.nClock + 1)).iso)
            (get_container_status (ow.probes (sw.nProbe + 1))) ++ harvested)) ∧
    (∀ (ow : LogWhisperer.Oracle) (model c : String) (tmo : Nat)
        (sw : LogWhisperer.StateLW) (rc : Int) (out err : String),
      get_container_status (ow.probes sw.nProbe) = "running" →
      ow.subproc sw.nSub = .completed rc out err →
      ow.harvest sw.nHarvest = none →
      FS.read (LogWhisperer.processContainer ow model c tmo sw).fs
          (save_path c ((ow.clock sw.nClock).fileTs))
        = some (LogWhisperer.lwHeader model c ((ow.clock (sw.nClock + 1)).iso)
            (get_container_status (ow.probes (sw.nProbe + 1)))
            ++ LogWhisperer.fallbackBody rc out err (get_recent_logs (ow.logs sw.nLogs)))) ∧
    get_container_status (oracleDiverge.probes 0) = "running" ∧
    ((pySplitlines ((FS.read (LogInsights.processContainer oracleDiverge "phi3:mini" "svc-a"
        LogInsights.initState).fs "summary_svc-a_20250101_000000.txt").getD ""))[2]?
      = some "Estado del contenedor: not_found") ∧
    get_container_status (oracleDivergeLW.probes 0) = "running" ∧
    ((pySplitlines ((FS.read (LogWhisperer.processContainer oracleDivergeLW "phi3:mini" "svc-a"
        90 LogWhisperer.initStateLW).fs "summary_svc-a_20250101_000000.txt").getD ""))[2]?
      = some "Estado del contenedor: not_found") := by
  refine ⟨?_, ?_, ?_, by decide, by decide, by decide, by decide⟩
  · intro o model c st h
    obtain ⟨hfs, _⟩ := LogInsights.processContainer_write o model c st h
    rw [hfs, FS.read_write, if_pos rfl]
  · intro ow model c tmo sw rc out err harvested hw hsub hh
    unfold LogWhisperer.processContainer
    rw [if_pos hw]
    unfold LogWhisperer.analyze_logs
    dsimp only
    rw [hsub]
    dsimp only
    rw [hh]
    dsimp only
    rw [FS.read_write, if_pos rfl]
  · intro ow model c tmo sw rc out err hw hsub hh
    unfold LogWhisperer.processContainer
    rw [if_pos hw]
    unfold LogWhisperer.analyze_logs
    dsimp only
    rw [hsub]
    dsimp only
    rw [hh]
    dsimp only
    rw [FS.read_write, if_pos rfl]

/-- Like `oracleDivergeLW`, but nothing is harvested, exercising the
fallback report path. -/
def oracleDivergeLW2 : LogWhisperer.Oracle where
  probes := fun n => if n = 0 then .found "running" else .notFound
  logs := fun _ => .ok "2025-01-01T00:00:00Z line\n"
  clock := fun _ => ⟨"20250101_000000", "2025-01-01T00:00:00"⟩
  subproc := fun _ => .completed 0 "done" ""
  harvest := fun _ => none

/-- Witness for `C10_fresh_header_probe`: in the diverging worlds each
report-writing path that carries a status header — loginsights'
`save_report`, logwhisperer's harvested path, logwhisperer's fallback
path — records the `not_found` status of the second probe. -/
theorem C10_fresh_header_probe_witness :
    FS.read (LogInsights.processContainer oracleDiverge "phi3:mini" "svc-a"
        LogInsights.initState).fs "summary_svc-a_20250101_000000.txt"
      = some (LogInsights.save_report_content "phi3:mini" "svc-a" "ok"
          "2025-01-01T00:00:00Z line\n" "not_found" "2025-01-01T00:00:00") ∧
    FS.read (LogWhisperer.processContainer oracleDivergeLW "phi3:mini" "svc-a" 90
        LogWhisperer.initStateLW).fs "summary_svc-a_20250101_000000.txt"
      = some (LogWhisperer.lwHeader "phi3:mini" "svc-a" "2025-01-01T00:00:00" "not_found"
          ++ "# Log Summary\nok\n") ∧
    FS.read (LogWhisperer.processContainer oracleDivergeLW2 "phi3:mini" "svc-a" 90
        LogWhisperer.initStateLW).fs "summary_svc-a_20250101_000000.txt"
      = some (LogWhisperer.lwHeader "phi3:mini" "svc-a" "2025-01-01T00:00:00" "not_found"
          ++ LogWhisperer.fallbackBody 0 "done" "" "2025-01-01T00:00:00Z line\n") := by
  refine ⟨?_, ?_, ?_⟩
  · have h := C10_fresh_header_probe.1 oracleDiverge "phi3:mini" "svc-a"
      LogInsights.initState (by decide)
    exact h.trans (by decide)
  · have h := C10_fresh_header_probe.2.1 oracleDivergeLW "phi3:mini" "svc-a" 90
      LogWhisperer.initStateLW 0 "done" "" "# Log Summary\nok\n"
      (by decide) (by decide) (by decide)
    exact h.trans (by decide)
  · have h := C10_fresh_header_probe.2.2.1 oracleDivergeLW2 "phi3:mini" "svc-a" 90
      LogWhisperer.initStateLW 0 "done" ""
      (by decide) (by decide) (by decide)
    exact h.trans (by decide)

/-- C3 counterexample: on an HTTP 200 whose `response` body field is
present but empty, `analyze_with_ollama` returns the empty string as the
analysis — not the `"Respuesta vacía"` placeholder — so the claim's
empty-field clause fails on the code. -/
theorem C3_counterexample :
    LogInsights.analyze_with_ollama
        (.response 200 "\x7b\"response\": \"\"\x7d" [("response", "")]) = "" ∧
    ("" : String) ≠ "Respuesta vacía" := by
  exact ⟨rfl, by decide⟩

/-- C3 (amended): the summarization call classifies outcomes as: a
transport timeout ⇒ the fixed timeout message; any other transport
failure ⇒ the transport detail; a non-200 status ⇒ the status code and
body; HTTP 200 with the `response` field *absent* ⇒ the
`"Respuesta vacía"` placeholder, while a *present* field — even the
empty string — is returned verbatim; and with the backend returning
HTTP 200 and field `"ok"` the report's ANALYSIS section equals `"ok"`. -/
theorem C3_classification :
    (LogInsights.analyze_with_ollama .timeout
        = "⏱️ Timeout alcanzado durante la llamada a Ollama") ∧
    (∀ d, LogInsights.analyze_with_ollama (.transportError d)
        = "❌ Error llamando a Ollama: " ++ d) ∧
    (∀ s text json, s ≠ 200 →
      LogInsights.analyze_with_ollama (.response s text json)
        = "Error " ++ toString s ++ ": " ++ text) ∧
    (∀ text json, json.find? (fun kv => kv.1 == "response") = none →
      LogInsights.analyze_with_ollama (.response 200 text json) = "Respuesta vacía") ∧
    (∀ text json c, json.find? (fun kv => kv.1 == "response") = some ("response", c) →
      LogInsights.analyze_with_ollama (.response 200 text json) = c) ∧
    (analysisSection
        (LogInsights.save_report_content "phi3:mini" "svc-a"
          (LogInsights.analyze_with_ollama
            (.response 200 "\x7b\"response\": \"ok\"\x7d" [("response", "ok")]))
          "2025-01-01T00:00:00Z line one\n" "running" "2025-01-01T00:00:01")
        = ["ok"]) := by
  refine ⟨rfl, fun d => rfl, ?_, ?_, ?_, by decide⟩
  · intro s text json hs
    have : (s == 200) = false := by simp [hs]
    simp [LogInsights.analyze_with_ollama, this]
  · intro text json h
    simp [LogInsights.analyze_with_ollama, dictGet, h]
  · intro text json c h
    simp [LogInsights.analyze_with_ollama, dictGet, h]

/-- Witness for `C3_classification` at concrete inputs, discharging each
hypothesis. -/
theorem C3_classification_witness :
    LogInsights.analyze_with_ollama (.response 500 "Internal Server Error" [])
        = "Error " ++ toString 500 ++ ": " ++ "Internal Server Error" ∧
    LogInsights.analyze_with_ollama (.response 200 "\x7b\x7d" []) = "Respuesta vacía" ∧
    LogInsights.analyze_with_ollama
        (.response 200 "\x7b\"response\": \"ok\"\x7d" [("response", "ok")]) = "ok" :=
  ⟨C3_classification.2.2.1 500 "Internal Server Error" [] (by decide),
   C3_classification.2.2.2.1 "\x7b\x7d" [] (by decide),
   C3_classification.2.2.2.2.1 "\x7b\"response\": \"ok\"\x7d" [("response", "ok")] "ok"
     (by decide)⟩

/-- C4: the log content embedded in the summarization prompt is the input
sample truncated to its first 4000 characters: the prompt is the fixed
instructions followed by `text[:4000]`, whose length never exceeds 4000,
and an input of at most 4000 characters is embedded unmodified. -/
theorem C4_truncation (container text : String) :
    LogInsights.buildPrompt container text
      = LogInsights.promptInstructions container ++ pyTake text 4000 ∧
    (pyTake text 4000).length ≤ 4000 ∧
    (text.length ≤ 4000 →
      LogInsights.buildPrompt container text
        = LogInsights.promptInstructions container ++ text) := by
  refine ⟨rfl, ?_, ?_⟩
  · rw [pyTake_length]
    exact Nat.min_le_left _ _
  · intro h
    rw [LogInsights.buildPrompt, pyTake_of_le text 4000 h]

/-- Witness for `C4_truncation` at a concrete short input. -/
theorem C4_truncation_witness :
    ("short log".length ≤ 4000) ∧
    LogInsights.buildPrompt "svc-a" "short log"
      = LogInsights.promptInstructions "svc-a" ++ "short log" :=
  ⟨by decide, (C4_truncation "svc-a" "short log").2.2 (by decide)⟩

/-- C5 counterexample: a report actually written by logwhisperer's
generic-exception path (51-line sample, subprocess raising) has all 51
sample lines in its raw-logs section, not min(50, 51) = 50. -/
theorem C5_counterexample :
    FS.read (LogWhisperer.processContainer oracleRaise "phi3:mini" "svc-a" 90
        LogWhisperer.initStateLW).fs "summary_svc-a_20250101_000000.txt"
      = some (LogWhisperer.errorContent "svc-a" "boom" sample51) ∧
    (pySplitlines sample51).length = 51 ∧
    (rawSection (LogWhisperer.errorContent "svc-a" "boom" sample51)).length = 51 ∧
    ¬ ((rawSection (LogWhisperer.errorContent "svc-a" "boom" sample51)).length
        = min 50 (pySplitlines sample51).length) := by
  refine ⟨by decide, by decide, by decide, by decide⟩

/-- C5 (amended): in loginsights every report's raw-log section holds
exactly min(50, n) of the sample's n lines — the trailing lines, in
their original order — and logwhisperer's fallback report likewise keeps
the last min(50, m) of the m newline-separated segments; logwhisperer's
timeout- and exception-path reports instead embed the whole sample. -/
theorem C5_raw_section_law (logs : String) :
    (LogInsights.reportRawLines logs).length = min 50 (pySplitlines logs).length ∧
    LogInsights.reportRawLines logs
      = (pySplitlines logs).drop ((pySplitlines logs).length - 50) ∧
    (takeLast (pySplitNl logs) 50).length = min 50 (pySplitNl logs).length ∧
    takeLast (pySplitNl logs) 50
      = (pySplitNl logs).drop ((pySplitNl logs).length - 50) := by
  exact ⟨takeLast_length _ _, rfl, takeLast_length _ _, rfl⟩

/-- C6: the log sampler never signals an error: on any retrieval failure
it returns the single synthetic line `"Error obteniendo logs: <detail>"`
(nonempty, and one line when the detail holds no newline), and a running
target's pipeline reaches the summarization call whatever the sampling
outcome. -/
theorem C6_sampler_total (d model c : String) (o : LogInsights.Oracle)
    (st : LogInsights.LoopState)
    (hd : ∀ ch ∈ d.data, ch ≠ '\n')
    (hrun : get_container_status (o.probes st.nProbe) = "running") :
    get_recent_logs (.failure d) = "Error obteniendo logs: " ++ d ∧
    get_recent_logs (.failure d) ≠ "" ∧
    pySplitlines (get_recent_logs (.failure d)) = [get_recent_logs (.failure d)] ∧
    (LogInsights.processContainer o model c st).nHttp = st.nHttp + 1 := by
  have hdata : ("Error obteniendo logs: " ++ d).data
      = "Error obteniendo logs: ".data ++ d.data := by
    rfl
  have hne : ("Error obteniendo logs: " ++ d) ≠ "" := by
    intro h
    have hdat := congrArg String.data h
    rw [hdata] at hdat
    have hnil := List.append_eq_nil.mp (hdat.trans (by decide : ("" : String).data = []))
    exact (by decide : "Error obteniendo logs: ".data ≠ []) hnil.1
  have hchars : ∀ ch ∈ ("Error obteniendo logs: " ++ d).data, ch ≠ '\n' := by
    intro ch hch
    rw [hdata] at hch
    have hpre : ∀ x ∈ "Error obteniendo logs: ".data, x ≠ '\n' := by decide
    rcases List.mem_append.mp hch with hl | hr
    · exact hpre ch hl
    · exact hd ch hr
  refine ⟨rfl, hne, ?_, ?_⟩
  · exact pySplitlines_single _ hne hchars
  · unfold LogInsights.processContainer
    rw [if_pos hrun]

/-- Witness for `C6_sampler_total`: a concrete sampler failure inside a
running target's turn. -/
theorem C6_sampler_total_witness :
    get_recent_logs (.failure "connection refused")
        = "Error obteniendo logs: connection refused" ∧
    pySplitlines (get_recent_logs (.failure "connection refused"))
        = [get_recent_logs (.failure "connection refused")] ∧
    (LogInsights.processContainer oracleFailSample "phi3:mini" "svc-a"
        LogInsights.initState).nHttp = LogInsights.initState.nHttp + 1 := by
  have h := C6_sampler_total "connection refused" "phi3:mini" "svc-a" oracleFailSample
    LogInsights.initState (by decide) (by decide)
  exact ⟨h.1, h.2.2.1, h.2.2.2⟩
